import Mathlib

/-!
# Shallow embedding of the MPU-9250 driver (`src/drivers/mpu9250/mpu9250.c`)

Each driver function is translated into a pure Lean function over an explicit
device state (`Dev`, holding the bus addresses and the configuration snapshot
`Conf`) and an explicit bus state (`BusState`, holding a register store, an
acquire-success flag and a transaction trace).  Machine bytes are `Nat` values
reduced `% 256` exactly where the C code stores into a `uint8_t`; C bitwise
complement followed by a `uint8_t` store is rendered as xor with `255`.

Register addresses, bit masks and range bounds live in the headers
`mpu9250.h` / `mpu9250-regs.h`, which are not part of `src/`; their values are
modelled from the specification (which fixes the rate bounds and the power
semantics) and from the MPU-9250 datasheet register map that the spec declares
authoritative ("register addresses and bit layouts are fixed constants defined
by the chip's datasheet and must be reproduced bit-exact").
-/

namespace Mpu9250

/-! ## Register addresses and bit constants (from the headers / datasheet) -/

/-- Power management 1 (clock / sleep) register address, datasheet 0x6B. -/
@[reducible] def MPU9250_PWR_MGMT_1_REG : Nat := 0x6B
/-- Power management 2 (per-subsystem standby) register address, 0x6C. -/
@[reducible] def MPU9250_PWR_MGMT_2_REG : Nat := 0x6C
/-- User control register (I2C-master enable bit lives here), 0x6A. -/
@[reducible] def MPU9250_USER_CTRL_REG : Nat := 0x6A
/-- Sample-rate divider register, 0x19. -/
@[reducible] def MPU9250_RATE_DIV_REG : Nat := 0x19
/-- DLPF configuration register for the gyro/temperature path, 0x1A. -/
@[reducible] def MPU9250_CONFIG : Nat := 0x1A
/-- Gyro configuration register, 0x1B. -/
@[reducible] def MPU9250_GYRO_CFG_REG : Nat := 0x1B
/-- Accelerometer configuration register, 0x1C. -/
@[reducible] def MPU9250_ACCEL_CFG_REG : Nat := 0x1C
/-- Accelerometer configuration register 2 (accel DLPF field), 0x1D. -/
@[reducible] def MPU9250_ACCEL_CFG_REG2 : Nat := 0x1D
/-- Low-power accel output-data-rate register, 0x1E. -/
@[reducible] def MPU9250_LP_ACCEL_ODR_REG : Nat := 0x1E
/-- Wake-on-motion threshold register, 0x1F. -/
@[reducible] def MPU9250_WOM_THR_REG : Nat := 0x1F
/-- I2C master control register, 0x24. -/
@[reducible] def MPU9250_I2C_MST_REG : Nat := 0x24
/-- Slave line 0 address / register / control registers. -/
@[reducible] def MPU9250_SLAVE0_ADDR_REG : Nat := 0x25
@[reducible] def MPU9250_SLAVE0_REG_REG : Nat := 0x26
@[reducible] def MPU9250_SLAVE0_CTRL_REG : Nat := 0x27
/-- Slave line 1 address / register / control registers. -/
@[reducible] def MPU9250_SLAVE1_ADDR_REG : Nat := 0x28
@[reducible] def MPU9250_SLAVE1_REG_REG : Nat := 0x29
@[reducible] def MPU9250_SLAVE1_CTRL_REG : Nat := 0x2A
/-- Slave line 4 control register (compass polling divider), 0x34. -/
@[reducible] def MPU9250_SLAVE4_CTRL_REG : Nat := 0x34
/-- Interrupt pin configuration register, 0x37. -/
@[reducible] def MPU9250_INT_PIN_CFG_REG : Nat := 0x37
/-- Interrupt enable register, 0x38. -/
@[reducible] def MPU9250_INT_ENABLE_REG : Nat := 0x38
/-- Accelerometer data start register, 0x3B. -/
@[reducible] def MPU9250_ACCEL_START_REG : Nat := 0x3B
/-- Temperature data start register, 0x41. -/
@[reducible] def MPU9250_TEMP_START_REG : Nat := 0x41
/-- Gyro data start register, 0x43. -/
@[reducible] def MPU9250_GYRO_START_REG : Nat := 0x43
/-- External-sensor data window start register, 0x49. -/
@[reducible] def MPU9250_EXT_SENS_DATA_START_REG : Nat := 0x49
/-- Slave line 1 data-out register, 0x64. -/
@[reducible] def MPU9250_SLAVE1_DATA_OUT_REG : Nat := 0x64
/-- I2C delay control register, 0x67. -/
@[reducible] def MPU9250_I2C_DELAY_CTRL_REG : Nat := 0x67
/-- Motion detection control register, 0x69. -/
@[reducible] def MPU9250_MOT_DETECT_CTRL_REG : Nat := 0x69

/-- Compass (AK8963) identity register, 0x00. -/
@[reducible] def COMPASS_WHOAMI_REG : Nat := 0x00
/-- Compass data start register, 0x03. -/
@[reducible] def COMPASS_DATA_START_REG : Nat := 0x03
/-- Compass control register, 0x0A. -/
@[reducible] def COMPASS_CNTL_REG : Nat := 0x0A
/-- Compass sensitivity-adjustment fuse-ROM start register, 0x10. -/
@[reducible] def COMPASS_ASAX_REG : Nat := 0x10

/-- Modelled from the spec: the expected fixed compass identity value (the
header defining `MPU9250_COMP_WHOAMI_ANSWER` is not in `src/`; the AK8963
answers 0x48). -/
@[reducible] def MPU9250_COMP_WHOAMI_ANSWER : Nat := 0x48

/-- Power management 1 values. -/
@[reducible] def MPU9250_PWR_RESET : Nat := 0x80
@[reducible] def MPU9250_PWR_WAKEUP : Nat := 0x00
@[reducible] def MPU9250_PWR_PLL : Nat := 0x01
@[reducible] def MPU9250_PWR_CYCLE : Nat := 0x20
@[reducible] def BIT_PWR_MGMT1_SLEEP : Nat := 0x40

/-- Modelled from the spec: accelerometer standby bits of power-management-2
(bits 3..5, header not in `src/`). -/
@[reducible] def MPU9250_PWR_ACCEL : Nat := 0x38
/-- Modelled from the spec: gyroscope standby bits of power-management-2
(bits 0..2, header not in `src/`). -/
@[reducible] def MPU9250_PWR_GYRO : Nat := 0x07

/-- User-control / bridge bits. -/
@[reducible] def BIT_I2C_MST_EN : Nat := 0x20
@[reducible] def BIT_I2C_BYPASS_EN : Nat := 0x02
@[reducible] def BIT_WAIT_FOR_ES : Nat := 0x40
@[reducible] def BIT_SLAVE_RW : Nat := 0x80
@[reducible] def BIT_SLAVE_EN : Nat := 0x80
@[reducible] def BIT_SLV0_DELAY_EN : Nat := 0x01
@[reducible] def BIT_SLV1_DELAY_EN : Nat := 0x02

/-- Compass control values. -/
@[reducible] def MPU9250_COMP_POWER_DOWN : Nat := 0x00
@[reducible] def MPU9250_COMP_SINGLE_MEASURE : Nat := 0x01
@[reducible] def MPU9250_COMP_FUSE_ROM : Nat := 0x0F

/-- Modelled from the spec: sample-rate bounds, "integer Hz, valid range
[4, 1000]" (macros live in the header, not in `src/`). -/
@[reducible] def MPU9250_MIN_SAMPLE_RATE : Nat := 4
@[reducible] def MPU9250_MAX_SAMPLE_RATE : Nat := 1000
/-- Modelled from the spec: compass sample-rate bounds, "integer Hz, valid
range [1, 100]". -/
@[reducible] def MPU9250_MIN_COMP_SMPL_RATE : Nat := 1
@[reducible] def MPU9250_MAX_COMP_SMPL_RATE : Nat := 100

/-- Digital low-pass filter codes (DLPF_CFG values of the MPU-9250). -/
@[reducible] def MPU9250_FILTER_184HZ : Nat := 1
@[reducible] def MPU9250_FILTER_92HZ : Nat := 2
@[reducible] def MPU9250_FILTER_41HZ : Nat := 3
@[reducible] def MPU9250_FILTER_20HZ : Nat := 4
@[reducible] def MPU9250_FILTER_10HZ : Nat := 5
@[reducible] def MPU9250_FILTER_5HZ : Nat := 6

/-- Accel DLPF value used by wake-on-motion (bandwidth 184 Hz, fchoice 1). -/
@[reducible] def MPU9250_ACCEL_CFG_WOM : Nat := 0x09
/-- Accel hardware-intelligence enable bits. -/
@[reducible] def MPU9250_ACCEL_INTEL_CFG : Nat := 0xC0
/-- Wake-on-motion interrupt enable bit. -/
@[reducible] def MPU9250_INT_WOM : Nat := 0x40
/-- Raw-data-ready interrupt enable / pin configuration values. -/
@[reducible] def MPU9250_INT_EN : Nat := 0x01
@[reducible] def MPU9250_INT_EN_CFG : Nat := 0x10
/-- Value written to reset a register (`#define REG_RESET (0x00)`). -/
@[reducible] def REG_RESET : Nat := 0x00
/-- `#define MAX_VALUE (0x7FFF)`. -/
@[reducible] def MAX_VALUE : Int := 0x7FFF

/-! ## Data model -/

/-- Modelled from the spec: per-subsystem power state, one of {ON, OFF}
(`mpu9250_pwr_t` is declared in the header, not in `src/`). -/
inductive Pwr where
  | off
  | on
deriving DecidableEq, Repr

/-- The configuration snapshot `mpu9250_status_t` (full-scale ranges and the
compass trim bytes are kept as raw `Nat` register codes, as the C struct keeps
enum / `uint8_t` values). -/
structure Conf where
  accel_pwr : Pwr
  gyro_pwr : Pwr
  compass_pwr : Pwr
  gyro_fsr : Nat
  accel_fsr : Nat
  sample_rate : Nat
  compass_sample_rate : Nat
  compass_x_adj : Nat
  compass_y_adj : Nat
  compass_z_adj : Nat
deriving DecidableEq, Repr

/-- Gyro full-scale range codes (`mpu9250_gyro_ranges_t`). -/
@[reducible] def MPU9250_GYRO_FSR_250DPS : Nat := 0
@[reducible] def MPU9250_GYRO_FSR_500DPS : Nat := 1
@[reducible] def MPU9250_GYRO_FSR_1000DPS : Nat := 2
@[reducible] def MPU9250_GYRO_FSR_2000DPS : Nat := 3

/-- Accel full-scale range codes (`mpu9250_accel_ranges_t`). -/
@[reducible] def MPU9250_ACCEL_FSR_2G : Nat := 0
@[reducible] def MPU9250_ACCEL_FSR_4G : Nat := 1
@[reducible] def MPU9250_ACCEL_FSR_8G : Nat := 2
@[reducible] def MPU9250_ACCEL_FSR_16G : Nat := 3

/-- `DEFAULT_STATUS` from `mpu9250.c`. -/
def DEFAULT_STATUS : Conf :=
  { accel_pwr := .on
    gyro_pwr := .on
    compass_pwr := .on
    gyro_fsr := MPU9250_GYRO_FSR_250DPS
    accel_fsr := MPU9250_ACCEL_FSR_16G
    sample_rate := 0
    compass_sample_rate := 0
    compass_x_adj := 0
    compass_y_adj := 0
    compass_z_adj := 0 }

/-- `mpu9250_params_t`: immutable bus addresses and the default sample rate. -/
structure Params where
  addr : Nat
  comp_addr : Nat
  sample_rate : Nat
deriving DecidableEq, Repr

/-- `mpu9250_t`: the device handle. -/
structure Dev where
  params : Params
  conf : Conf
deriving DecidableEq, Repr

/-! ## Bus model

A transaction trace records every byte-level bus operation the driver issues,
in order; `acquire` is logged whenever `i2c_acquire` is attempted.  The
register store maps `(device address, register)` to the stored byte. -/

/-- One bus transaction. -/
inductive Trans where
  | acquire
  | release
  | read (addr reg value : Nat)
  | write (addr reg value : Nat)
deriving DecidableEq, Repr

/-- State of the I2C bus: whether exclusive acquisition succeeds, the register
store, and the accumulated transaction trace. -/
structure BusState where
  acquireOk : Bool
  regs : Nat → Nat → Nat
  trace : List Trans

/-- The byte a register read returns (`uint8_t` sized). -/
def regVal (bs : BusState) (addr reg : Nat) : Nat := bs.regs addr reg % 256

/-- Log a read transaction (`i2c_read_reg`); the value read is `regVal`. -/
def busRead (bs : BusState) (addr reg : Nat) : BusState :=
  { bs with trace := bs.trace ++ [.read addr reg (regVal bs addr reg)] }

/-- `i2c_write_reg`: store a byte and log the write. -/
def busWrite (bs : BusState) (addr reg v : Nat) : BusState :=
  { bs with
    regs := fun a r => if a = addr ∧ r = reg then v % 256 else bs.regs a r
    trace := bs.trace ++ [.write addr reg (v % 256)] }

/-- Log an `i2c_acquire` attempt. -/
def busAcquireLog (bs : BusState) : BusState :=
  { bs with trace := bs.trace ++ [.acquire] }

/-- Log an `i2c_release`. -/
def busRelease (bs : BusState) : BusState :=
  { bs with trace := bs.trace ++ [.release] }

/-- The bytes read by `i2c_read_regs addr reg n` (consecutive registers). -/
def regVals (bs : BusState) (addr reg n : Nat) : List Nat :=
  (List.range n).map fun i => regVal bs addr (reg + i)

/-- `i2c_read_regs`: log `n` consecutive reads. -/
def busReadMany (bs : BusState) (addr reg n : Nat) : BusState :=
  { bs with
    trace := bs.trace ++ (List.range n).map fun i =>
      .read addr (reg + i) (regVal bs addr (reg + i)) }

/-- Result of one driver call: the C return code, the updated handle and the
updated bus state. -/
structure CallRes where
  ret : Int
  dev : Dev
  bs : BusState

/-- The writes a trace contains to one register, in order. -/
def writesTo (t : List Trans) (addr reg : Nat) : List Nat :=
  t.filterMap fun tr =>
    match tr with
    | .write a r v => if a = addr ∧ r = reg then some v else none
    | _ => none

/-- The reads a trace contains from one register, in order. -/
def readsFrom (t : List Trans) (addr reg : Nat) : List Nat :=
  t.filterMap fun tr =>
    match tr with
    | .read a r v => if a = addr ∧ r = reg then some v else none
    | _ => none

/-- All write transactions of a trace. -/
def allWrites (t : List Trans) : List Trans :=
  t.filter fun tr =>
    match tr with
    | .write _ _ _ => true
    | _ => false

/-! ## Power state machine (`mpu9250_set_*_power`) -/

/-- `mpu9250_set_accel_power` from `mpu9250.c` lines 123-162. -/
def mpu9250_set_accel_power (dev : Dev) (bs : BusState) (pwr_conf : Pwr) : CallRes :=
  if dev.conf.accel_pwr = pwr_conf then
    ⟨0, dev, bs⟩
  else
    let bs := busAcquireLog bs
    if bs.acquireOk = false then
      ⟨-1, dev, bs⟩
    else
      let pwr_2 := regVal bs dev.params.addr MPU9250_PWR_MGMT_2_REG
      let bs := busRead bs dev.params.addr MPU9250_PWR_MGMT_2_REG
      let pwr_1_setting :=
        if pwr_conf = .on then MPU9250_PWR_WAKEUP else BIT_PWR_MGMT1_SLEEP
      let pwr_2_setting :=
        if pwr_conf = .on then pwr_2 &&& (255 ^^^ MPU9250_PWR_ACCEL)
        else pwr_2 ||| MPU9250_PWR_ACCEL
      let bs :=
        if dev.conf.gyro_pwr = .off ∧ dev.conf.compass_pwr = .off then
          busWrite bs dev.params.addr MPU9250_PWR_MGMT_1_REG pwr_1_setting
        else bs
      let bs := busWrite bs dev.params.addr MPU9250_PWR_MGMT_2_REG pwr_2_setting
      let bs := busRelease bs
      ⟨0, { dev with conf := { dev.conf with accel_pwr := pwr_conf } }, bs⟩

/-- `mpu9250_set_gyro_power` from `mpu9250.c` lines 164-210. -/
def mpu9250_set_gyro_power (dev : Dev) (bs : BusState) (pwr_conf : Pwr) : CallRes :=
  if dev.conf.gyro_pwr = pwr_conf then
    ⟨0, dev, bs⟩
  else
    let bs := busAcquireLog bs
    if bs.acquireOk = false then
      ⟨-1, dev, bs⟩
    else
      let pwr_2 := regVal bs dev.params.addr MPU9250_PWR_MGMT_2_REG
      let bs := busRead bs dev.params.addr MPU9250_PWR_MGMT_2_REG
      if pwr_conf = .on then
        let bs := busWrite bs dev.params.addr MPU9250_PWR_MGMT_1_REG MPU9250_PWR_PLL
        let bs := busWrite bs dev.params.addr MPU9250_PWR_MGMT_2_REG
          (pwr_2 &&& (255 ^^^ MPU9250_PWR_GYRO))
        let bs := busRelease bs
        ⟨0, { dev with conf := { dev.conf with gyro_pwr := pwr_conf } }, bs⟩
      else
        let bs :=
          if dev.conf.accel_pwr = .off ∧ dev.conf.compass_pwr = .off then
            busWrite bs dev.params.addr MPU9250_PWR_MGMT_1_REG BIT_PWR_MGMT1_SLEEP
          else
            busWrite bs dev.params.addr MPU9250_PWR_MGMT_1_REG MPU9250_PWR_WAKEUP
        let bs := busWrite bs dev.params.addr MPU9250_PWR_MGMT_2_REG
          (pwr_2 ||| MPU9250_PWR_GYRO)
        let bs := busRelease bs
        ⟨0, { dev with conf := { dev.conf with gyro_pwr := pwr_conf } }, bs⟩

/-- `mpu9250_set_compass_power` from `mpu9250.c` lines 212-255. -/
def mpu9250_set_compass_power (dev : Dev) (bs : BusState) (pwr_conf : Pwr) : CallRes :=
  if dev.conf.compass_pwr = pwr_conf then
    ⟨0, dev, bs⟩
  else
    let bs := busAcquireLog bs
    if bs.acquireOk = false then
      ⟨-1, dev, bs⟩
    else
      let usr_ctrl := regVal bs dev.params.addr MPU9250_USER_CTRL_REG
      let bs := busRead bs dev.params.addr MPU9250_USER_CTRL_REG
      let pwr_1_setting :=
        if pwr_conf = .on then MPU9250_PWR_WAKEUP else BIT_PWR_MGMT1_SLEEP
      let s1_do_setting :=
        if pwr_conf = .on then MPU9250_COMP_SINGLE_MEASURE else MPU9250_COMP_POWER_DOWN
      let usr_ctrl_setting :=
        if pwr_conf = .on then usr_ctrl ||| BIT_I2C_MST_EN
        else usr_ctrl &&& (255 ^^^ BIT_I2C_MST_EN)
      let bs :=
        if dev.conf.gyro_pwr = .off ∧ dev.conf.accel_pwr = .off then
          busWrite bs dev.params.addr MPU9250_PWR_MGMT_1_REG pwr_1_setting
        else bs
      let bs := busWrite bs dev.params.addr MPU9250_SLAVE1_DATA_OUT_REG s1_do_setting
      let bs := busWrite bs dev.params.addr MPU9250_USER_CTRL_REG usr_ctrl_setting
      let bs := busRelease bs
      ⟨0, { dev with conf := { dev.conf with compass_pwr := pwr_conf } }, bs⟩

/-! ## Range & rate configurator -/

/-- `mpu9250_set_gyro_fsr` from `mpu9250.c` lines 396-420 (the `switch` over
the four enumerated range codes is rendered as a membership test). -/
def mpu9250_set_gyro_fsr (dev : Dev) (bs : BusState) (fsr : Nat) : CallRes :=
  if dev.conf.gyro_fsr = fsr then
    ⟨0, dev, bs⟩
  else if fsr = MPU9250_GYRO_FSR_250DPS ∨ fsr = MPU9250_GYRO_FSR_500DPS
      ∨ fsr = MPU9250_GYRO_FSR_1000DPS ∨ fsr = MPU9250_GYRO_FSR_2000DPS then
    let bs := busAcquireLog bs
    if bs.acquireOk = false then
      ⟨-1, dev, bs⟩
    else
      let bs := busWrite bs dev.params.addr MPU9250_GYRO_CFG_REG (fsr <<< 3)
      let bs := busRelease bs
      ⟨0, { dev with conf := { dev.conf with gyro_fsr := fsr } }, bs⟩
  else
    ⟨-2, dev, bs⟩

/-- `mpu9250_set_accel_fsr` from `mpu9250.c` lines 422-446. -/
def mpu9250_set_accel_fsr (dev : Dev) (bs : BusState) (fsr : Nat) : CallRes :=
  if dev.conf.accel_fsr = fsr then
    ⟨0, dev, bs⟩
  else if fsr = MPU9250_ACCEL_FSR_2G ∨ fsr = MPU9250_ACCEL_FSR_4G
      ∨ fsr = MPU9250_ACCEL_FSR_8G ∨ fsr = MPU9250_ACCEL_FSR_16G then
    let bs := busAcquireLog bs
    if bs.acquireOk = false then
      ⟨-1, dev, bs⟩
    else
      let bs := busWrite bs dev.params.addr MPU9250_ACCEL_CFG_REG (fsr <<< 3)
      let bs := busRelease bs
      ⟨0, { dev with conf := { dev.conf with accel_fsr := fsr } }, bs⟩
  else
    ⟨-2, dev, bs⟩

/-- The low-pass-filter selection of `conf_lpf` (`mpu9250.c` lines 711-728),
extracted as the pure threshold table it is. -/
def lpf_select (half_rate : Nat) : Nat :=
  if 184 ≤ half_rate then MPU9250_FILTER_184HZ
  else if 92 ≤ half_rate then MPU9250_FILTER_92HZ
  else if 42 ≤ half_rate then MPU9250_FILTER_41HZ
  else if 20 ≤ half_rate then MPU9250_FILTER_20HZ
  else if 10 ≤ half_rate then MPU9250_FILTER_10HZ
  else MPU9250_FILTER_5HZ

/-- The nominal bandwidth, in Hz, of each discrete filter code. -/
def lpfBandwidth (code : Nat) : Nat :=
  if code = MPU9250_FILTER_184HZ then 184
  else if code = MPU9250_FILTER_92HZ then 92
  else if code = MPU9250_FILTER_41HZ then 41
  else if code = MPU9250_FILTER_20HZ then 20
  else if code = MPU9250_FILTER_10HZ then 10
  else if code = MPU9250_FILTER_5HZ then 5
  else 0

/-- `conf_lpf` from `mpu9250.c` lines 705-743: select the filter code for the
given half rate, write it to the gyro/temperature config register, merge it
into the accel config-2 low nibble, and clear the gyro fchoice bits. -/
def conf_lpf (dev : Dev) (bs : BusState) (half_rate : Nat) : BusState :=
  let lpf_setting := lpf_select half_rate
  let bs := busWrite bs dev.params.addr MPU9250_CONFIG lpf_setting
  let acceldata := regVal bs dev.params.addr MPU9250_ACCEL_CFG_REG2
  let bs := busRead bs dev.params.addr MPU9250_ACCEL_CFG_REG2
  let acceldata := (acceldata &&& (255 ^^^ 0x0F)) ||| lpf_setting
  let bs := busWrite bs dev.params.addr MPU9250_ACCEL_CFG_REG2 acceldata
  let gyrodata := regVal bs dev.params.addr MPU9250_GYRO_CFG_REG
  let bs := busRead bs dev.params.addr MPU9250_GYRO_CFG_REG
  let gyrodata := gyrodata &&& (255 ^^^ 0x03)
  busWrite bs dev.params.addr MPU9250_GYRO_CFG_REG gyrodata

/-- `mpu9250_set_sample_rate` from `mpu9250.c` lines 448-475.  The divider is
a `uint8_t`, hence the `% 256`; the stored rate is recomputed from the
divider and the low-pass filter is re-derived from half the stored rate. -/
def mpu9250_set_sample_rate (dev : Dev) (bs : BusState) (rate : Nat) : CallRes :=
  if rate < MPU9250_MIN_SAMPLE_RATE ∨ MPU9250_MAX_SAMPLE_RATE < rate then
    ⟨-2, dev, bs⟩
  else if dev.conf.sample_rate = rate then
    ⟨0, dev, bs⟩
  else
    let divider := (1000 / rate - 1) % 256
    let bs := busAcquireLog bs
    if bs.acquireOk = false then
      ⟨-1, dev, bs⟩
    else
      let bs := busWrite bs dev.params.addr MPU9250_RATE_DIV_REG divider
      let dev := { dev with conf := { dev.conf with sample_rate := 1000 / (divider + 1) } }
      let bs := conf_lpf dev bs (dev.conf.sample_rate >>> 1)
      let bs := busRelease bs
      ⟨0, dev, bs⟩

/-- `mpu9250_set_compass_sample_rate` from `mpu9250.c` lines 477-502.  The
divider is a `uint8_t` (`% 256`); the stored compass rate is recomputed from
the divider relative to the current sensor sample rate. -/
def mpu9250_set_compass_sample_rate (dev : Dev) (bs : BusState) (rate : Nat) : CallRes :=
  if rate < MPU9250_MIN_COMP_SMPL_RATE ∨ MPU9250_MAX_COMP_SMPL_RATE < rate
      ∨ dev.conf.sample_rate < rate then
    ⟨-2, dev, bs⟩
  else if dev.conf.compass_sample_rate = rate then
    ⟨0, dev, bs⟩
  else
    let divider := (dev.conf.sample_rate / rate - 1) % 256
    let bs := busAcquireLog bs
    if bs.acquireOk = false then
      ⟨-1, dev, bs⟩
    else
      let bs := busWrite bs dev.params.addr MPU9250_SLAVE4_CTRL_REG divider
      let bs := busRelease bs
      ⟨0, { dev with conf :=
          { dev.conf with compass_sample_rate := dev.conf.sample_rate / (divider + 1) } }, bs⟩

/-! ## Measurement reader (gyro / accel raw paths) -/

/-- Three scaled axis values (`mpu9250_results_t`, `int16_t` fields). -/
structure Results where
  x_axis : Int
  y_axis : Int
  z_axis : Int
deriving DecidableEq, Repr

/-- Reinterpret a 16-bit big-endian register pair as a signed `int16_t`. -/
def toInt16 (v : Nat) : Int :=
  if v % 65536 < 32768 then (v % 65536 : Int) else (v % 65536 : Int) - 65536

/-- The `switch (dev->conf.gyro_fsr)` of `mpu9250_read_gyro`: the full-scale
value in dps, or `none` for a code outside the enumeration. -/
def gyroFsrValue (fsr : Nat) : Option Int :=
  if fsr = MPU9250_GYRO_FSR_250DPS then some 250
  else if fsr = MPU9250_GYRO_FSR_500DPS then some 500
  else if fsr = MPU9250_GYRO_FSR_1000DPS then some 1000
  else if fsr = MPU9250_GYRO_FSR_2000DPS then some 2000
  else none

/-- The `switch (dev->conf.accel_fsr)` of `mpu9250_read_accel`: the
full-scale value in milli-g, or `none` for a code outside the enumeration. -/
def accelFsrValue (fsr : Nat) : Option Int :=
  if fsr = MPU9250_ACCEL_FSR_2G then some 2000
  else if fsr = MPU9250_ACCEL_FSR_4G then some 4000
  else if fsr = MPU9250_ACCEL_FSR_8G then some 8000
  else if fsr = MPU9250_ACCEL_FSR_16G then some 16000
  else none

/-- Scale one big-endian axis pair: `(temp * fsr) / MAX_VALUE` with C
truncating (toward-zero) integer division. -/
def scaleAxis (hi lo : Nat) (fsr : Int) : Int :=
  Int.tdiv (toInt16 ((hi <<< 8) ||| lo) * fsr) MAX_VALUE

/-- `mpu9250_read_gyro` from `mpu9250.c` lines 257-298.  The output structure
is `none` when the C function returns without writing it. -/
def mpu9250_read_gyro (dev : Dev) (bs : BusState) : Int × Option Results × BusState :=
  match gyroFsrValue dev.conf.gyro_fsr with
  | none => (-2, none, bs)
  | some fsr =>
    let bs := busAcquireLog bs
    if bs.acquireOk = false then
      (-1, none, bs)
    else
      let data := regVals bs dev.params.addr MPU9250_GYRO_START_REG 6
      let bs := busReadMany bs dev.params.addr MPU9250_GYRO_START_REG 6
      let bs := busRelease bs
      (0, some { x_axis := scaleAxis (data.getD 0 0) (data.getD 1 0) fsr
                 y_axis := scaleAxis (data.getD 2 0) (data.getD 3 0) fsr
                 z_axis := scaleAxis (data.getD 4 0) (data.getD 5 0) fsr }, bs)

/-- `mpu9250_read_accel` from `mpu9250.c` lines 300-341. -/
def mpu9250_read_accel (dev : Dev) (bs : BusState) : Int × Option Results × BusState :=
  match accelFsrValue dev.conf.accel_fsr with
  | none => (-2, none, bs)
  | some fsr =>
    let bs := busAcquireLog bs
    if bs.acquireOk = false then
      (-1, none, bs)
    else
      let data := regVals bs dev.params.addr MPU9250_ACCEL_START_REG 6
      let bs := busReadMany bs dev.params.addr MPU9250_ACCEL_START_REG 6
      let bs := busRelease bs
      (0, some { x_axis := scaleAxis (data.getD 0 0) (data.getD 1 0) fsr
                 y_axis := scaleAxis (data.getD 2 0) (data.getD 3 0) fsr
                 z_axis := scaleAxis (data.getD 4 0) (data.getD 5 0) fsr }, bs)

/-! ## Compass bridge, wake-on-motion, bring-up -/

/-- `conf_bypass` from `mpu9250.c` lines 679-696 (bus already held by the
caller). -/
def conf_bypass (dev : Dev) (bs : BusState) (bypass_enable : Nat) : BusState :=
  let data := regVal bs dev.params.addr MPU9250_USER_CTRL_REG
  let bs := busRead bs dev.params.addr MPU9250_USER_CTRL_REG
  if bypass_enable ≠ 0 then
    let bs := busWrite bs dev.params.addr MPU9250_USER_CTRL_REG
      (data &&& (255 ^^^ BIT_I2C_MST_EN))
    busWrite bs dev.params.addr MPU9250_INT_PIN_CFG_REG BIT_I2C_BYPASS_EN
  else
    let bs := busWrite bs dev.params.addr MPU9250_USER_CTRL_REG
      (data ||| BIT_I2C_MST_EN)
    busWrite bs dev.params.addr MPU9250_INT_PIN_CFG_REG REG_RESET

/-- The power-management-2 update of `mpu9250_enable_wom` step 3
(`mpu9250.c` line 527): `temp &= ~(MPU9250_PWR_ACCEL | (~MPU9250_PWR_GYRO))`,
with the C 32-bit complements reduced to their 8-bit effect on the `uint8_t`
store. -/
def womPm2Expr (temp : Nat) : Nat :=
  temp &&& (255 ^^^ (MPU9250_PWR_ACCEL ||| (255 ^^^ MPU9250_PWR_GYRO)))

/-- `mpu9250_enable_wom` from `mpu9250.c` lines 504-556. -/
def mpu9250_enable_wom (dev : Dev) (bs : BusState) (wom_threshold wake_up_freq : Nat) :
    CallRes :=
  let bs := busAcquireLog bs
  if bs.acquireOk = false then
    ⟨-1, dev, bs⟩
  else
    -- Step 1: turn off compass through bypass mode
    let bs := conf_bypass dev bs 1
    let bs := busWrite bs dev.params.comp_addr COMPASS_CNTL_REG MPU9250_COMP_POWER_DOWN
    let bs := conf_bypass dev bs 0
    -- Step 2: reset, then wake the MPU
    let bs := busWrite bs dev.params.addr MPU9250_PWR_MGMT_1_REG MPU9250_PWR_RESET
    let bs := busWrite bs dev.params.addr MPU9250_PWR_MGMT_1_REG MPU9250_PWR_WAKEUP
    -- Step 3: the power-management-2 read-modify-write
    let temp := regVal bs dev.params.addr MPU9250_PWR_MGMT_2_REG
    let bs := busRead bs dev.params.addr MPU9250_PWR_MGMT_2_REG
    let bs := busWrite bs dev.params.addr MPU9250_PWR_MGMT_2_REG (womPm2Expr temp)
    -- Step 4: accel bandwidth / fchoice for wake-on-motion
    let temp := regVal bs dev.params.addr MPU9250_ACCEL_CFG_REG2
    let bs := busRead bs dev.params.addr MPU9250_ACCEL_CFG_REG2
    let bs := busWrite bs dev.params.addr MPU9250_ACCEL_CFG_REG2
      ((temp &&& (255 ^^^ 0x0F)) ||| MPU9250_ACCEL_CFG_WOM)
    -- Step 5: enable the WoM interrupt
    let bs := busWrite bs dev.params.addr MPU9250_INT_ENABLE_REG MPU9250_INT_WOM
    -- Step 6: enable accel hardware intelligence
    let temp := regVal bs dev.params.addr MPU9250_MOT_DETECT_CTRL_REG
    let bs := busRead bs dev.params.addr MPU9250_MOT_DETECT_CTRL_REG
    let bs := busWrite bs dev.params.addr MPU9250_MOT_DETECT_CTRL_REG
      ((temp &&& (255 ^^^ MPU9250_ACCEL_INTEL_CFG)) ||| MPU9250_ACCEL_INTEL_CFG)
    -- Step 7: WoM threshold
    let bs := busWrite bs dev.params.addr MPU9250_WOM_THR_REG wom_threshold
    -- Step 8: wake-up frequency
    let bs := busWrite bs dev.params.addr MPU9250_LP_ACCEL_ODR_REG wake_up_freq
    -- Step 9: cycled low-power sampling
    let bs := busWrite bs dev.params.addr MPU9250_PWR_MGMT_1_REG MPU9250_PWR_CYCLE
    let bs := busRelease bs
    ⟨0, dev, bs⟩

/-- `compass_init` from `mpu9250.c` lines 606-672 (bus already held by the
caller). -/
def compass_init (dev : Dev) (bs : BusState) : Int × Dev × BusState :=
  let bs := conf_bypass dev bs 1
  let who := regVal bs dev.params.comp_addr COMPASS_WHOAMI_REG
  let bs := busRead bs dev.params.comp_addr COMPASS_WHOAMI_REG
  if who ≠ MPU9250_COMP_WHOAMI_ANSWER then
    (-1, dev, bs)
  else
    let bs := busWrite bs dev.params.comp_addr COMPASS_CNTL_REG MPU9250_COMP_POWER_DOWN
    let bs := busWrite bs dev.params.comp_addr COMPASS_CNTL_REG MPU9250_COMP_FUSE_ROM
    let adj := regVals bs dev.params.comp_addr COMPASS_ASAX_REG 3
    let bs := busReadMany bs dev.params.comp_addr COMPASS_ASAX_REG 3
    let dev := { dev with conf :=
      { dev.conf with
        compass_x_adj := adj.getD 0 0
        compass_y_adj := adj.getD 1 0
        compass_z_adj := adj.getD 2 0 } }
    let bs := busWrite bs dev.params.comp_addr COMPASS_CNTL_REG MPU9250_COMP_POWER_DOWN
    let bs := conf_bypass dev bs 0
    let bs := busWrite bs dev.params.addr MPU9250_I2C_MST_REG BIT_WAIT_FOR_ES
    let bs := busWrite bs dev.params.addr MPU9250_SLAVE0_ADDR_REG
      (BIT_SLAVE_RW ||| dev.params.comp_addr)
    let bs := busWrite bs dev.params.addr MPU9250_SLAVE0_REG_REG COMPASS_DATA_START_REG
    let bs := busWrite bs dev.params.addr MPU9250_SLAVE0_CTRL_REG (BIT_SLAVE_EN ||| 0x06)
    let bs := busWrite bs dev.params.addr MPU9250_SLAVE1_ADDR_REG dev.params.comp_addr
    let bs := busWrite bs dev.params.addr MPU9250_SLAVE1_REG_REG COMPASS_CNTL_REG
    let bs := busWrite bs dev.params.addr MPU9250_SLAVE1_CTRL_REG (BIT_SLAVE_EN ||| 0x01)
    let bs := busWrite bs dev.params.addr MPU9250_SLAVE1_DATA_OUT_REG
      MPU9250_COMP_SINGLE_MEASURE
    let bs := busWrite bs dev.params.addr MPU9250_I2C_DELAY_CTRL_REG
      (BIT_SLV0_DELAY_EN ||| BIT_SLV1_DELAY_EN)
    (0, dev, bs)

/-- `mpu9250_reset_and_init` from `mpu9250.c` lines 80-121.  In the C code the
`i2c_acquire` results inside this function are not checked, so the acquire
attempts are logged and execution proceeds. -/
def mpu9250_reset_and_init (dev : Dev) (bs : BusState) : CallRes :=
  let bs := busAcquireLog bs
  let bs := busWrite bs dev.params.addr MPU9250_PWR_MGMT_1_REG MPU9250_PWR_RESET
  let bs := busWrite bs dev.params.addr MPU9250_PWR_MGMT_1_REG MPU9250_PWR_WAKEUP
  let bs := busRelease bs
  let r1 := mpu9250_set_gyro_fsr dev bs MPU9250_GYRO_FSR_2000DPS
  let r2 := mpu9250_set_accel_fsr r1.dev r1.bs MPU9250_ACCEL_FSR_2G
  let r3 := mpu9250_set_sample_rate r2.dev r2.bs r2.dev.params.sample_rate
  let dev := r3.dev
  let bs := busAcquireLog r3.bs
  let bs := busWrite bs dev.params.addr MPU9250_INT_ENABLE_REG REG_RESET
  match compass_init dev bs with
  | (ci, dev, bs) =>
    if ci ≠ 0 then
      let bs := busRelease bs
      ⟨-2, dev, bs⟩
    else
      let bs := busRelease bs
      let r4 := mpu9250_set_compass_sample_rate dev bs 10
      let dev := r4.dev
      let bs := busAcquireLog r4.bs
      let bs := busWrite bs dev.params.addr MPU9250_PWR_MGMT_1_REG MPU9250_PWR_PLL
      let temp := regVal bs dev.params.addr MPU9250_PWR_MGMT_2_REG
      let bs := busRead bs dev.params.addr MPU9250_PWR_MGMT_2_REG
      let bs := busWrite bs dev.params.addr MPU9250_PWR_MGMT_2_REG
        (temp &&& (255 ^^^ (MPU9250_PWR_ACCEL ||| MPU9250_PWR_GYRO)))
      let bs := busRelease bs
      ⟨0, dev, bs⟩

/-- `mpu9250_init` from `mpu9250.c` lines 63-78: install the parameters and
the default configuration, initialise the I2C master (`i2c_ok` models the
external `i2c_init_master` outcome), then run the bring-up sequence. -/
def mpu9250_init (params : Params) (i2c_ok : Bool) (bs : BusState) : CallRes :=
  let dev : Dev := { params := params, conf := DEFAULT_STATUS }
  if i2c_ok = false then
    ⟨-1, dev, bs⟩
  else
    mpu9250_reset_and_init dev bs

/-! ## Derived notions used by the claims -/

/-- All three subsystems are simultaneously OFF in a snapshot. -/
def allOff (c : Conf) : Prop :=
  c.accel_pwr = .off ∧ c.gyro_pwr = .off ∧ c.compass_pwr = .off

instance (c : Conf) : Decidable (allOff c) := by unfold allOff; infer_instance

/-- Rounding to the nearest integer of the quotient `a / b` (half rounds up):
this is what "round" means when the spec derives the divider as
`round(1000/rate) − 1`.  Written `⌊a/b + 1/2⌋ = ⌊(2a+b)/(2b)⌋`. -/
def natRound (a b : Nat) : Nat := (2 * a + b) / (2 * b)

/-- Modelled from the spec's words, for the refinement comparison of C2: the
stored rate the spec predicts, `1000/(round(1000/rate)-1+1)`. -/
def c2SpecStored (rate : Nat) : Nat := 1000 / (natRound 1000 rate - 1 + 1)

/-- Modelled from the spec's words, for the refinement comparison of C4: the
stored compass rate the spec predicts,
`sensor_rate/(round(sensor_rate/r)-1+1)`. -/
def c4SpecStored (sensor_rate r : Nat) : Nat :=
  sensor_rate / (natRound sensor_rate r - 1 + 1)

/-! ## Concrete fixtures for witnesses and counterexamples -/

/-- A bus whose exclusive acquisition succeeds and whose registers all read 0. -/
def bsA : BusState := { acquireOk := true, regs := fun _ _ => 0, trace := [] }

/-- A bus whose exclusive acquisition fails. -/
def bsF : BusState := { acquireOk := false, regs := fun _ _ => 0, trace := [] }

/-- A bus whose registers all read 0x45 (an arbitrary nonzero byte pattern). -/
def bsB : BusState := { acquireOk := true, regs := fun _ _ => 0x45, trace := [] }

/-- Concrete construction parameters: sensor at address 1, compass at 2. -/
def paramsA : Params := { addr := 1, comp_addr := 2, sample_rate := 50 }

/-- A freshly constructed handle with the factory-default snapshot. -/
def devA : Dev := { params := paramsA, conf := DEFAULT_STATUS }

/-! ## Small projection lemmas about the bus operations -/

@[simp] theorem busAcquireLog_acquireOk (bs : BusState) :
    (busAcquireLog bs).acquireOk = bs.acquireOk := rfl

@[simp] theorem busAcquireLog_regs (bs : BusState) :
    (busAcquireLog bs).regs = bs.regs := rfl

@[simp] theorem busAcquireLog_trace (bs : BusState) :
    (busAcquireLog bs).trace = bs.trace ++ [.acquire] := rfl

@[simp] theorem busRead_acquireOk (bs : BusState) (a r : Nat) :
    (busRead bs a r).acquireOk = bs.acquireOk := rfl

@[simp] theorem busRead_regs (bs : BusState) (a r : Nat) :
    (busRead bs a r).regs = bs.regs := rfl

@[simp] theorem busRead_trace (bs : BusState) (a r : Nat) :
    (busRead bs a r).trace = bs.trace ++ [.read a r (regVal bs a r)] := rfl

@[simp] theorem busReadMany_acquireOk (bs : BusState) (a r n : Nat) :
    (busReadMany bs a r n).acquireOk = bs.acquireOk := rfl

@[simp] theorem busReadMany_regs (bs : BusState) (a r n : Nat) :
    (busReadMany bs a r n).regs = bs.regs := rfl

@[simp] theorem busWrite_acquireOk (bs : BusState) (a r v : Nat) :
    (busWrite bs a r v).acquireOk = bs.acquireOk := rfl

@[simp] theorem busWrite_trace (bs : BusState) (a r v : Nat) :
    (busWrite bs a r v).trace = bs.trace ++ [.write a r (v % 256)] := rfl

@[simp] theorem busWrite_regs (bs : BusState) (a r v a' r' : Nat) :
    (busWrite bs a r v).regs a' r'
      = if a' = a ∧ r' = r then v % 256 else bs.regs a' r' := rfl

@[simp] theorem busRelease_acquireOk (bs : BusState) :
    (busRelease bs).acquireOk = bs.acquireOk := rfl

@[simp] theorem busRelease_regs (bs : BusState) :
    (busRelease bs).regs = bs.regs := rfl

@[simp] theorem busRelease_trace (bs : BusState) :
    (busRelease bs).trace = bs.trace ++ [.release] := rfl

@[simp] theorem writesTo_nil (a r : Nat) : writesTo [] a r = [] := rfl

@[simp] theorem writesTo_append (t₁ t₂ : List Trans) (a r : Nat) :
    writesTo (t₁ ++ t₂) a r = writesTo t₁ a r ++ writesTo t₂ a r := by
  simp [writesTo]

@[simp] theorem readsFrom_nil (a r : Nat) : readsFrom [] a r = [] := rfl

@[simp] theorem readsFrom_append (t₁ t₂ : List Trans) (a r : Nat) :
    readsFrom (t₁ ++ t₂) a r = readsFrom t₁ a r ++ readsFrom t₂ a r := by
  simp [readsFrom]

/-! ## Claim C9 — power-setter no-ops -/

/-- C9: for every subsystem power setter, requesting the power state already
recorded in the configuration snapshot returns success (0), issues zero bus
transactions (the bus state, trace included, is untouched — not even an
acquire is attempted) and changes no state (the handle is returned as is). -/
theorem C9_power_setter_noop (dev : Dev) (bs : BusState) (pwr : Pwr) :
    (pwr = dev.conf.accel_pwr →
      mpu9250_set_accel_power dev bs pwr = ⟨0, dev, bs⟩) ∧
    (pwr = dev.conf.gyro_pwr →
      mpu9250_set_gyro_power dev bs pwr = ⟨0, dev, bs⟩) ∧
    (pwr = dev.conf.compass_pwr →
      mpu9250_set_compass_power dev bs pwr = ⟨0, dev, bs⟩) := by
  refine ⟨fun h => ?_, fun h => ?_, fun h => ?_⟩ <;>
    simp [mpu9250_set_accel_power, mpu9250_set_gyro_power,
      mpu9250_set_compass_power, ← h]

/-- Witness for C9 at a concrete input: the default snapshot has every
subsystem ON, so requesting ON is a no-op for each setter. -/
theorem C9_power_setter_noop_witness :
    mpu9250_set_accel_power devA bsA .on = ⟨0, devA, bsA⟩ ∧
    mpu9250_set_gyro_power devA bsA .on = ⟨0, devA, bsA⟩ ∧
    mpu9250_set_compass_power devA bsA .on = ⟨0, devA, bsA⟩ :=
  ⟨(C9_power_setter_noop devA bsA .on).1 rfl,
   (C9_power_setter_noop devA bsA .on).2.1 rfl,
   (C9_power_setter_noop devA bsA .on).2.2 rfl⟩

/-! ## Claim C10 — reads rejected on an unenumerated full-scale range -/

/-- C10: if the stored gyro (resp. accel) full-scale code is outside the four
enumerated values, `mpu9250_read_gyro` (resp. `mpu9250_read_accel`) returns
the distinct error code −2 before acquiring the bus — the bus state (trace
included) is untouched and the output structure is unwritten (`none`) — and
−2 is a different error code than the bus error −1. -/
theorem C10_read_invalid_fsr (dev : Dev) (bs : BusState) :
    (dev.conf.gyro_fsr ≠ MPU9250_GYRO_FSR_250DPS →
     dev.conf.gyro_fsr ≠ MPU9250_GYRO_FSR_500DPS →
     dev.conf.gyro_fsr ≠ MPU9250_GYRO_FSR_1000DPS →
     dev.conf.gyro_fsr ≠ MPU9250_GYRO_FSR_2000DPS →
      mpu9250_read_gyro dev bs = (-2, none, bs)) ∧
    (dev.conf.accel_fsr ≠ MPU9250_ACCEL_FSR_2G →
     dev.conf.accel_fsr ≠ MPU9250_ACCEL_FSR_4G →
     dev.conf.accel_fsr ≠ MPU9250_ACCEL_FSR_8G →
     dev.conf.accel_fsr ≠ MPU9250_ACCEL_FSR_16G →
      mpu9250_read_accel dev bs = (-2, none, bs)) ∧
    (-2 : Int) ≠ -1 := by
  refine ⟨fun h0 h1 h2 h3 => ?_, fun h0 h1 h2 h3 => ?_, by norm_num⟩ <;>
    simp [mpu9250_read_gyro, mpu9250_read_accel, gyroFsrValue, accelFsrValue,
      h0, h1, h2, h3]

/-- Witness for C10 at a concrete input: full-scale code 7 is outside both
enumerations. -/
theorem C10_read_invalid_fsr_witness :
    mpu9250_read_gyro
      { devA with conf := { devA.conf with gyro_fsr := 7 } } bsA = (-2, none, bsA) ∧
    mpu9250_read_accel
      { devA with conf := { devA.conf with accel_fsr := 7 } } bsA = (-2, none, bsA) :=
  ⟨(C10_read_invalid_fsr { devA with conf := { devA.conf with gyro_fsr := 7 } } bsA).1
      (by decide) (by decide) (by decide) (by decide),
   (C10_read_invalid_fsr { devA with conf := { devA.conf with accel_fsr := 7 } } bsA).2.1
      (by decide) (by decide) (by decide) (by decide)⟩

/-! ## Claim C8 — failed bus acquisition leaves the snapshot untouched -/

/-- C8: for every power, range and sample-rate setter, when the call is not
already rejected or a no-op (so exclusive acquisition is actually attempted)
and acquisition fails, the call returns the bus error −1, the configuration
snapshot is completely unmodified, and no register transaction is issued (the
trace only records the failed acquire attempt). -/
theorem C8_acquire_failure_unmodified (dev : Dev) (bs : BusState)
    (hfail : bs.acquireOk = false) :
    (∀ pwr, pwr ≠ dev.conf.accel_pwr →
      mpu9250_set_accel_power dev bs pwr = ⟨-1, dev, busAcquireLog bs⟩) ∧
    (∀ pwr, pwr ≠ dev.conf.gyro_pwr →
      mpu9250_set_gyro_power dev bs pwr = ⟨-1, dev, busAcquireLog bs⟩) ∧
    (∀ pwr, pwr ≠ dev.conf.compass_pwr →
      mpu9250_set_compass_power dev bs pwr = ⟨-1, dev, busAcquireLog bs⟩) ∧
    (∀ fsr, fsr ≠ dev.conf.gyro_fsr →
      (fsr = MPU9250_GYRO_FSR_250DPS ∨ fsr = MPU9250_GYRO_FSR_500DPS
        ∨ fsr = MPU9250_GYRO_FSR_1000DPS ∨ fsr = MPU9250_GYRO_FSR_2000DPS) →
      mpu9250_set_gyro_fsr dev bs fsr = ⟨-1, dev, busAcquireLog bs⟩) ∧
    (∀ fsr, fsr ≠ dev.conf.accel_fsr →
      (fsr = MPU9250_ACCEL_FSR_2G ∨ fsr = MPU9250_ACCEL_FSR_4G
        ∨ fsr = MPU9250_ACCEL_FSR_8G ∨ fsr = MPU9250_ACCEL_FSR_16G) →
      mpu9250_set_accel_fsr dev bs fsr = ⟨-1, dev, busAcquireLog bs⟩) ∧
    (∀ rate, MPU9250_MIN_SAMPLE_RATE ≤ rate → rate ≤ MPU9250_MAX_SAMPLE_RATE →
      rate ≠ dev.conf.sample_rate →
      mpu9250_set_sample_rate dev bs rate = ⟨-1, dev, busAcquireLog bs⟩) ∧
    (∀ rate, MPU9250_MIN_COMP_SMPL_RATE ≤ rate → rate ≤ MPU9250_MAX_COMP_SMPL_RATE →
      rate ≤ dev.conf.sample_rate → rate ≠ dev.conf.compass_sample_rate →
      mpu9250_set_compass_sample_rate dev bs rate = ⟨-1, dev, busAcquireLog bs⟩) := by
  refine ⟨fun pwr h => ?_, fun pwr h => ?_, fun pwr h => ?_,
    fun fsr h hv => ?_, fun fsr h hv => ?_,
    fun rate hlo hhi h => ?_, fun rate hlo hhi hle h => ?_⟩
  · simp [mpu9250_set_accel_power, Ne.symm h, hfail]
  · simp [mpu9250_set_gyro_power, Ne.symm h, hfail]
  · simp [mpu9250_set_compass_power, Ne.symm h, hfail]
  · simp [mpu9250_set_gyro_fsr, Ne.symm h, hv, hfail]
  · simp [mpu9250_set_accel_fsr, Ne.symm h, hv, hfail]
  · have h1 : ¬(rate < MPU9250_MIN_SAMPLE_RATE ∨ MPU9250_MAX_SAMPLE_RATE < rate) := by
      omega
    unfold mpu9250_set_sample_rate
    rw [if_neg h1, if_neg (Ne.symm h)]
    simp [hfail]
  · have h1 : ¬(rate < MPU9250_MIN_COMP_SMPL_RATE ∨ MPU9250_MAX_COMP_SMPL_RATE < rate
        ∨ dev.conf.sample_rate < rate) := by omega
    unfold mpu9250_set_compass_sample_rate
    rw [if_neg h1, if_neg (Ne.symm h)]
    simp [hfail]

/-- Witness for C8 at concrete inputs: on a bus that refuses acquisition, a
genuine OFF transition and a genuine rate change both fail with −1 and leave
the handle untouched. -/
theorem C8_acquire_failure_unmodified_witness :
    mpu9250_set_accel_power devA bsF .off = ⟨-1, devA, busAcquireLog bsF⟩ ∧
    mpu9250_set_gyro_power devA bsF .off = ⟨-1, devA, busAcquireLog bsF⟩ ∧
    mpu9250_set_compass_power devA bsF .off = ⟨-1, devA, busAcquireLog bsF⟩ ∧
    mpu9250_set_gyro_fsr devA bsF MPU9250_GYRO_FSR_500DPS
      = ⟨-1, devA, busAcquireLog bsF⟩ ∧
    mpu9250_set_accel_fsr devA bsF MPU9250_ACCEL_FSR_2G
      = ⟨-1, devA, busAcquireLog bsF⟩ ∧
    mpu9250_set_sample_rate devA bsF 100 = ⟨-1, devA, busAcquireLog bsF⟩ ∧
    mpu9250_set_compass_sample_rate
      { devA with conf := { devA.conf with sample_rate := 100 } } bsF 10
      = ⟨-1, { devA with conf := { devA.conf with sample_rate := 100 } },
          busAcquireLog bsF⟩ := by
  refine ⟨?_, ?_, ?_, ?_, ?_, ?_, ?_⟩
  · exact (C8_acquire_failure_unmodified devA bsF rfl).1 .off (by decide)
  · exact (C8_acquire_failure_unmodified devA bsF rfl).2.1 .off (by decide)
  · exact (C8_acquire_failure_unmodified devA bsF rfl).2.2.1 .off (by decide)
  · exact (C8_acquire_failure_unmodified devA bsF rfl).2.2.2.1 _ (by decide)
      (by decide)
  · exact (C8_acquire_failure_unmodified devA bsF rfl).2.2.2.2.1 _ (by decide)
      (by decide)
  · exact (C8_acquire_failure_unmodified devA bsF rfl).2.2.2.2.2.1 100 (by decide)
      (by decide) (by decide)
  · exact (C8_acquire_failure_unmodified
      { devA with conf := { devA.conf with sample_rate := 100 } } bsF rfl).2.2.2.2.2.2
      10 (by decide) (by decide) (by decide) (by decide)

/-! ## Claim C7 — the wake-on-motion power-management-2 bit pattern -/

theorem womPm2Expr_eq_and (v : Nat) : womPm2Expr v = v &&& MPU9250_PWR_GYRO := by
  have hX : (255 ^^^ (MPU9250_PWR_ACCEL ||| (255 ^^^ MPU9250_PWR_GYRO)))
      = MPU9250_PWR_GYRO := by decide
  unfold womPm2Expr
  rw [hX]

theorem womPm2Expr_mod (v : Nat) : womPm2Expr v % 256 = womPm2Expr v := by
  apply Nat.mod_eq_of_lt
  rw [womPm2Expr_eq_and]
  exact Nat.lt_of_le_of_lt Nat.and_le_right (by norm_num)

/-- C7: `mpu9250_enable_wom` writes the power-management-2 register exactly
once, and for every prior register value the written byte is literally
`old & ~(MPU9250_PWR_ACCEL | ~MPU9250_PWR_GYRO)` (`womPm2Expr`) — which
collapses to `old & MPU9250_PWR_GYRO`, keeping only the gyro standby bits —
and not the "clear the accel standby bits, set the gyro standby bits" value
`(old & ~ACCEL) | GYRO` the sequence apparently intends. -/
theorem C7_wom_pm2_bit_pattern (dev : Dev) (bs : BusState) (thr freq : Nat)
    (hok : bs.acquireOk = true) (ht : bs.trace = []) :
    writesTo (mpu9250_enable_wom dev bs thr freq).bs.trace dev.params.addr
        MPU9250_PWR_MGMT_2_REG
      = [womPm2Expr (regVal bs dev.params.addr MPU9250_PWR_MGMT_2_REG)] ∧
    (∀ v, womPm2Expr v = v &&& MPU9250_PWR_GYRO) ∧
    womPm2Expr 0x40 ≠ ((0x40 &&& (255 ^^^ MPU9250_PWR_ACCEL)) ||| MPU9250_PWR_GYRO) := by
  refine ⟨?_, womPm2Expr_eq_and, by decide⟩
  simp [mpu9250_enable_wom, conf_bypass, hok, ht, writesTo, regVal, womPm2Expr_mod]

/-- Witness for C7 at a concrete input: registers all holding 0x45. -/
theorem C7_wom_pm2_bit_pattern_witness :
    writesTo (mpu9250_enable_wom devA bsB 5 1).bs.trace devA.params.addr
        MPU9250_PWR_MGMT_2_REG
      = [womPm2Expr (regVal bsB devA.params.addr MPU9250_PWR_MGMT_2_REG)] ∧
    (∀ v, womPm2Expr v = v &&& MPU9250_PWR_GYRO) ∧
    womPm2Expr 0x40 ≠ ((0x40 &&& (255 ^^^ MPU9250_PWR_ACCEL)) ||| MPU9250_PWR_GYRO) :=
  C7_wom_pm2_bit_pattern devA bsB 5 1 rfl rfl

/-! ## Claims C2 / C3 — sample rate and low-pass filter -/

/-- The complete effect of a successful, rate-changing `mpu9250_set_sample_rate`
call: return 0, the snapshot's rate becomes `1000 / (1000/rate)` (truncating
divider `1000/rate − 1`, re-divided), and the call issues exactly the divider
write followed by the three low-pass-filter register accesses of `conf_lpf`. -/
theorem set_sample_rate_success (dev : Dev) (bs : BusState) (rate : Nat)
    (hok : bs.acquireOk = true) (hlo : MPU9250_MIN_SAMPLE_RATE ≤ rate)
    (hhi : rate ≤ MPU9250_MAX_SAMPLE_RATE) (hne : rate ≠ dev.conf.sample_rate) :
    (mpu9250_set_sample_rate dev bs rate).ret = 0 ∧
    (mpu9250_set_sample_rate dev bs rate).dev
      = { dev with conf := { dev.conf with sample_rate := 1000 / (1000 / rate) } } ∧
    (mpu9250_set_sample_rate dev bs rate).bs.trace
      = bs.trace ++
        [.acquire,
         .write dev.params.addr MPU9250_RATE_DIV_REG (1000 / rate - 1),
         .write dev.params.addr MPU9250_CONFIG
           (lpf_select ((1000 / (1000 / rate)) >>> 1)),
         .read dev.params.addr MPU9250_ACCEL_CFG_REG2
           (regVal bs dev.params.addr MPU9250_ACCEL_CFG_REG2),
         .write dev.params.addr MPU9250_ACCEL_CFG_REG2
           (((regVal bs dev.params.addr MPU9250_ACCEL_CFG_REG2 &&& 0xF0)
              ||| lpf_select ((1000 / (1000 / rate)) >>> 1)) % 256),
         .read dev.params.addr MPU9250_GYRO_CFG_REG
           (regVal bs dev.params.addr MPU9250_GYRO_CFG_REG),
         .write dev.params.addr MPU9250_GYRO_CFG_REG
           ((regVal bs dev.params.addr MPU9250_GYRO_CFG_REG &&& 0xFC) % 256),
         .release] := by
  have hlo' : 4 ≤ rate := hlo
  have hhi' : rate ≤ 1000 := hhi
  have hd250 : 1000 / rate ≤ 250 := by
    calc 1000 / rate ≤ 1000 / 4 := Nat.div_le_div_left hlo' (by norm_num)
    _ = 250 := by norm_num
  have hd1 : 1 ≤ 1000 / rate := (Nat.one_le_div_iff (by omega)).mpr hhi'
  have hmod : (1000 / rate - 1) % 256 = 1000 / rate - 1 := Nat.mod_eq_of_lt (by omega)
  have hplus : 1000 / rate - 1 + 1 = 1000 / rate := by omega
  have hr : ¬(rate < MPU9250_MIN_SAMPLE_RATE ∨ MPU9250_MAX_SAMPLE_RATE < rate) := by
    omega
  have hsel : ∀ h : Nat, lpf_select h % 256 = lpf_select h := by
    intro h
    apply Nat.mod_eq_of_lt
    unfold lpf_select
    split_ifs <;> norm_num
  have hdm : (1000 / rate - 1) < 256 := by omega
  unfold mpu9250_set_sample_rate
  rw [if_neg hr, if_neg (Ne.symm hne)]
  simp [hok, conf_lpf, regVal, hmod, hplus, hsel, Nat.mod_eq_of_lt hdm]

/-- C2 (counterexample): at requested rate 7 Hz the driver computes the
truncating divider `1000/7 − 1 = 141` and stores `1000/142 = 7`, whereas the
claim's formula with rounding (`round(1000/7) = 143`) derives divider 142 and
stored rate `1000/143 = 6`: the claim's equation fails at rate 7. -/
theorem C2_sample_rate_round_counterexample :
    (mpu9250_set_sample_rate devA bsA 7).ret = 0 ∧
    (mpu9250_set_sample_rate devA bsA 7).dev.conf.sample_rate = 7 ∧
    writesTo (mpu9250_set_sample_rate devA bsA 7).bs.trace devA.params.addr
        MPU9250_RATE_DIV_REG = [141] ∧
    natRound 1000 7 - 1 = 142 ∧
    c2SpecStored 7 = 6 ∧
    (mpu9250_set_sample_rate devA bsA 7).dev.conf.sample_rate ≠ c2SpecStored 7 := by
  decide

/-- C2 (amended): for every requested rate outside [4,1000] Hz,
`mpu9250_set_sample_rate` fails with the range error −2 before any bus
transaction and leaves the handle unchanged; for every in-range rate that
differs from the stored rate (and a bus that grants access) it succeeds, the
divider written is the *truncating* `⌊1000/rate⌋ − 1`, and the stored rate
afterwards is `1000 / (⌊1000/rate⌋ − 1 + 1)`.  (Requesting the stored rate is
a success with no bus traffic.) -/
theorem C2_sample_rate_amended (dev : Dev) (bs : BusState) (rate : Nat)
    (hok : bs.acquireOk = true) (ht : bs.trace = []) :
    ((rate < MPU9250_MIN_SAMPLE_RATE ∨ MPU9250_MAX_SAMPLE_RATE < rate) →
      mpu9250_set_sample_rate dev bs rate = ⟨-2, dev, bs⟩) ∧
    (MPU9250_MIN_SAMPLE_RATE ≤ rate → rate ≤ MPU9250_MAX_SAMPLE_RATE →
      dev.conf.sample_rate = rate →
      mpu9250_set_sample_rate dev bs rate = ⟨0, dev, bs⟩) ∧
    (MPU9250_MIN_SAMPLE_RATE ≤ rate → rate ≤ MPU9250_MAX_SAMPLE_RATE →
      rate ≠ dev.conf.sample_rate →
      (mpu9250_set_sample_rate dev bs rate).ret = 0 ∧
      (mpu9250_set_sample_rate dev bs rate).dev.conf.sample_rate
        = 1000 / ((1000 / rate - 1) + 1) ∧
      writesTo (mpu9250_set_sample_rate dev bs rate).bs.trace dev.params.addr
          MPU9250_RATE_DIV_REG = [1000 / rate - 1]) := by
  refine ⟨fun h => ?_, fun hlo hhi h => ?_, fun hlo hhi hne => ?_⟩
  · unfold mpu9250_set_sample_rate
    rw [if_pos h]
  · have h2 : ¬(rate < MPU9250_MIN_SAMPLE_RATE ∨ MPU9250_MAX_SAMPLE_RATE < rate) := by
      omega
    unfold mpu9250_set_sample_rate
    rw [if_neg h2, if_pos h]
  · obtain ⟨h1, h2, h3⟩ := set_sample_rate_success dev bs rate hok hlo hhi hne
    have hlo' : 4 ≤ rate := hlo
    have hhi' : rate ≤ 1000 := hhi
    have hplus : 1000 / rate - 1 + 1 = 1000 / rate := by
      have hd1 : 1 ≤ 1000 / rate := (Nat.one_le_div_iff (by omega)).mpr hhi'
      omega
    refine ⟨h1, ?_, ?_⟩
    · rw [h2, hplus]
    · rw [h3, ht]
      simp [writesTo]

/-- Witness for C2 (amended) at concrete inputs: 2000 Hz is rejected without
touching anything, requesting the stored 100 Hz is a pure success, and a
change to 100 Hz from the default stores `1000/(1000/100) = 100` and writes
divider 9. -/
theorem C2_sample_rate_amended_witness :
    mpu9250_set_sample_rate devA bsA 2000 = ⟨-2, devA, bsA⟩ ∧
    mpu9250_set_sample_rate
        { devA with conf := { devA.conf with sample_rate := 100 } } bsA 100
      = ⟨0, { devA with conf := { devA.conf with sample_rate := 100 } }, bsA⟩ ∧
    ((mpu9250_set_sample_rate devA bsA 100).ret = 0 ∧
      (mpu9250_set_sample_rate devA bsA 100).dev.conf.sample_rate
        = 1000 / ((1000 / 100 - 1) + 1) ∧
      writesTo (mpu9250_set_sample_rate devA bsA 100).bs.trace devA.params.addr
          MPU9250_RATE_DIV_REG = [1000 / 100 - 1]) :=
  ⟨(C2_sample_rate_amended devA bsA 2000 rfl rfl).1 (by decide),
   (C2_sample_rate_amended
      { devA with conf := { devA.conf with sample_rate := 100 } } bsA 100 rfl rfl).2.1
      (by decide) (by decide) (by decide),
   (C2_sample_rate_amended devA bsA 100 rfl rfl).2.2
      (by decide) (by decide) (by decide)⟩

/-- The bandwidth selected by `lpf_select`, as one ordered threshold table. -/
theorem lpfBandwidth_lpf_select (h : Nat) :
    lpfBandwidth (lpf_select h)
      = if 184 ≤ h then 184 else if 92 ≤ h then 92 else if 42 ≤ h then 41
        else if 20 ≤ h then 20 else if 10 ≤ h then 10 else 5 := by
  unfold lpf_select
  split_ifs <;> simp [lpfBandwidth]

/-- C3 (counterexample): requesting 4 Hz succeeds and stores rate 4, the
filter recomputation selects the ≈5 Hz filter, and 5 Hz is *not* ≤ half the
stored rate (2 Hz) — the Nyquist-margin part of the claim fails for stored
rates below 10 Hz.  Moreover a successful no-op call (requesting the stored
rate) issues no bus transaction at all, so the filter is not recomputed on
*every* successful call. -/
theorem C3_lpf_counterexample :
    (mpu9250_set_sample_rate devA bsA 4).ret = 0 ∧
    (mpu9250_set_sample_rate devA bsA 4).dev.conf.sample_rate = 4 ∧
    writesTo (mpu9250_set_sample_rate devA bsA 4).bs.trace devA.params.addr
        MPU9250_CONFIG = [MPU9250_FILTER_5HZ] ∧
    lpfBandwidth MPU9250_FILTER_5HZ = 5 ∧
    ¬(lpfBandwidth MPU9250_FILTER_5HZ ≤ 4 / 2) ∧
    (mpu9250_set_sample_rate
        { devA with conf := { devA.conf with sample_rate := 100 } } bsA 100).ret = 0 ∧
    (mpu9250_set_sample_rate
        { devA with conf := { devA.conf with sample_rate := 100 } } bsA 100).bs.trace
      = [] := by
  decide

/-- C3 (amended): the low-pass filter selection is the ordered threshold
table of the code (184/92/42/20/10 Hz thresholds, anything below 10 Hz giving
the ≈5 Hz filter), its bandwidth is a monotone step function of the half
rate, the selected bandwidth is ≤ the half rate whenever the half rate is at
least 5 Hz (equivalently, stored rate ≥ 10 Hz; below that the minimum 5 Hz
filter exceeds the half rate), and every successful *rate-changing*
`mpu9250_set_sample_rate` call rewrites the filter configuration register
with the code selected for half the new stored rate. -/
theorem C3_lpf_amended :
    (∀ h, 184 ≤ h → lpf_select h = MPU9250_FILTER_184HZ) ∧
    (∀ h, 92 ≤ h → h < 184 → lpf_select h = MPU9250_FILTER_92HZ) ∧
    (∀ h, 42 ≤ h → h < 92 → lpf_select h = MPU9250_FILTER_41HZ) ∧
    (∀ h, 20 ≤ h → h < 42 → lpf_select h = MPU9250_FILTER_20HZ) ∧
    (∀ h, 10 ≤ h → h < 20 → lpf_select h = MPU9250_FILTER_10HZ) ∧
    (∀ h, h < 10 → lpf_select h = MPU9250_FILTER_5HZ) ∧
    (∀ h₁ h₂, h₁ ≤ h₂ → lpfBandwidth (lpf_select h₁) ≤ lpfBandwidth (lpf_select h₂)) ∧
    (∀ h, 5 ≤ h → lpfBandwidth (lpf_select h) ≤ h) ∧
    (∀ h, h < 5 → lpfBandwidth (lpf_select h) = 5 ∧ h < 5) ∧
    (∀ dev bs rate, bs.acquireOk = true → bs.trace = [] →
      MPU9250_MIN_SAMPLE_RATE ≤ rate → rate ≤ MPU9250_MAX_SAMPLE_RATE →
      rate ≠ dev.conf.sample_rate →
      writesTo (mpu9250_set_sample_rate dev bs rate).bs.trace dev.params.addr
          MPU9250_CONFIG
        = [lpf_select ((mpu9250_set_sample_rate dev bs rate).dev.conf.sample_rate >>> 1)]) := by
  refine ⟨?_, ?_, ?_, ?_, ?_, ?_, ?_, ?_, ?_, ?_⟩
  · intro h hh
    unfold lpf_select
    rw [if_pos hh]
  · intro h h1 h2
    unfold lpf_select
    rw [if_neg (by omega), if_pos h1]
  · intro h h1 h2
    unfold lpf_select
    rw [if_neg (by omega), if_neg (by omega), if_pos h1]
  · intro h h1 h2
    unfold lpf_select
    rw [if_neg (by omega), if_neg (by omega), if_neg (by omega), if_pos h1]
  · intro h h1 h2
    unfold lpf_select
    rw [if_neg (by omega), if_neg (by omega), if_neg (by omega), if_neg (by omega),
      if_pos h1]
  · intro h h1
    unfold lpf_select
    rw [if_neg (by omega), if_neg (by omega), if_neg (by omega), if_neg (by omega),
      if_neg (by omega)]
  · intro h₁ h₂ hle
    rw [lpfBandwidth_lpf_select, lpfBandwidth_lpf_select]
    split_ifs <;> omega
  · intro h h5
    rw [lpfBandwidth_lpf_select]
    split_ifs <;> omega
  · intro h h5
    rw [lpfBandwidth_lpf_select]
    split_ifs <;> omega
  · intro dev bs rate hok ht hlo hhi hne
    obtain ⟨-, h2, h3⟩ := set_sample_rate_success dev bs rate hok hlo hhi hne
    rw [h3, ht, h2]
    simp [writesTo]

/-- Witness for C3 (amended) at concrete inputs, one per threshold band, for
monotonicity, for the Nyquist bound at half rate 12, for the sub-5 Hz band,
and for the filter rewrite issued by a concrete rate change to 4 Hz. -/
theorem C3_lpf_amended_witness :
    lpf_select 200 = MPU9250_FILTER_184HZ ∧
    lpf_select 100 = MPU9250_FILTER_92HZ ∧
    lpf_select 50 = MPU9250_FILTER_41HZ ∧
    lpf_select 30 = MPU9250_FILTER_20HZ ∧
    lpf_select 15 = MPU9250_FILTER_10HZ ∧
    lpf_select 5 = MPU9250_FILTER_5HZ ∧
    lpfBandwidth (lpf_select 3) ≤ lpfBandwidth (lpf_select 7) ∧
    lpfBandwidth (lpf_select 12) ≤ 12 ∧
    (lpfBandwidth (lpf_select 2) = 5 ∧ 2 < 5) ∧
    writesTo (mpu9250_set_sample_rate devA bsA 4).bs.trace devA.params.addr
        MPU9250_CONFIG
      = [lpf_select ((mpu9250_set_sample_rate devA bsA 4).dev.conf.sample_rate >>> 1)] :=
  ⟨C3_lpf_amended.1 200 (by decide),
   C3_lpf_amended.2.1 100 (by decide) (by decide),
   C3_lpf_amended.2.2.1 50 (by decide) (by decide),
   C3_lpf_amended.2.2.2.1 30 (by decide) (by decide),
   C3_lpf_amended.2.2.2.2.1 15 (by decide) (by decide),
   C3_lpf_amended.2.2.2.2.2.1 5 (by decide),
   C3_lpf_amended.2.2.2.2.2.2.1 3 7 (by decide),
   C3_lpf_amended.2.2.2.2.2.2.2.1 12 (by decide),
   C3_lpf_amended.2.2.2.2.2.2.2.2.1 2 (by decide),
   C3_lpf_amended.2.2.2.2.2.2.2.2.2 devA bsA 4 rfl rfl (by decide) (by decide)
     (by decide)⟩

/-! ## Claims C4 / C5 — compass sample rate -/

/-- The complete effect of a successful, rate-changing
`mpu9250_set_compass_sample_rate` call: the divider is the truncating
`⌊s/rate⌋ − 1` stored into a `uint8_t` (hence `% 256`), exactly one register
write (the slave-4 polling divider) is issued, and the stored compass rate is
recomputed as `s / (divider + 1)`. -/
theorem set_compass_sample_rate_success (dev : Dev) (bs : BusState) (rate : Nat)
    (hok : bs.acquireOk = true) (hlo : MPU9250_MIN_COMP_SMPL_RATE ≤ rate)
    (hhi : rate ≤ MPU9250_MAX_COMP_SMPL_RATE) (hle : rate ≤ dev.conf.sample_rate)
    (hne : rate ≠ dev.conf.compass_sample_rate) :
    mpu9250_set_compass_sample_rate dev bs rate
      = ⟨0,
          { dev with conf := { dev.conf with compass_sample_rate :=
              dev.conf.sample_rate
                / ((dev.conf.sample_rate / rate - 1) % 256 + 1) } },
          busRelease (busWrite (busAcquireLog bs) dev.params.addr
            MPU9250_SLAVE4_CTRL_REG ((dev.conf.sample_rate / rate - 1) % 256))⟩ := by
  have hr : ¬(rate < MPU9250_MIN_COMP_SMPL_RATE ∨ MPU9250_MAX_COMP_SMPL_RATE < rate
      ∨ dev.conf.sample_rate < rate) := by omega
  unfold mpu9250_set_compass_sample_rate
  rw [if_neg hr, if_neg (Ne.symm hne)]
  simp [hok]

/-- C4 (counterexample): with stored sensor rate 1000 Hz, requesting a
compass rate of 3 Hz succeeds but stores 12 Hz — the divider `⌊1000/3⌋ − 1 =
332` is truncated to the 8-bit value 76, and `1000/77 = 12` — while the
claim's formula predicts `1000/round(1000/3) = 3`; and requesting 7 Hz stores
`1000/142 = 7` while the formula with rounding predicts `1000/143 = 6`. -/
theorem C4_compass_rate_counterexample :
    (mpu9250_set_compass_sample_rate
        { devA with conf := { devA.conf with sample_rate := 1000 } } bsA 3).ret = 0 ∧
    (mpu9250_set_compass_sample_rate
        { devA with conf := { devA.conf with sample_rate := 1000 } } bsA 3).dev.conf.compass_sample_rate
      = 12 ∧
    c4SpecStored 1000 3 = 3 ∧
    (mpu9250_set_compass_sample_rate
        { devA with conf := { devA.conf with sample_rate := 1000 } } bsA 7).dev.conf.compass_sample_rate
      = 7 ∧
    c4SpecStored 1000 7 = 6 := by
  decide

/-- C4 (amended): for every requested compass rate outside [1,100] or above
the stored sensor rate, `mpu9250_set_compass_sample_rate` fails with the
range error −2 before any bus transaction and leaves the handle unchanged;
for every valid rate differing from the stored compass rate (on a granting
bus) it succeeds and the stored compass rate afterwards is
`s / (((⌊s/rate⌋ − 1) mod 256) + 1)` — the divider is truncating, not
rounding, and is stored through an 8-bit register variable.  (Requesting the
stored compass rate is a success with no bus traffic.) -/
theorem C4_compass_rate_amended (dev : Dev) (bs : BusState) (rate : Nat)
    (hok : bs.acquireOk = true) (ht : bs.trace = []) :
    ((rate < MPU9250_MIN_COMP_SMPL_RATE ∨ MPU9250_MAX_COMP_SMPL_RATE < rate
        ∨ dev.conf.sample_rate < rate) →
      mpu9250_set_compass_sample_rate dev bs rate = ⟨-2, dev, bs⟩) ∧
    (MPU9250_MIN_COMP_SMPL_RATE ≤ rate → rate ≤ MPU9250_MAX_COMP_SMPL_RATE →
      rate ≤ dev.conf.sample_rate → dev.conf.compass_sample_rate = rate →
      mpu9250_set_compass_sample_rate dev bs rate = ⟨0, dev, bs⟩) ∧
    (MPU9250_MIN_COMP_SMPL_RATE ≤ rate → rate ≤ MPU9250_MAX_COMP_SMPL_RATE →
      rate ≤ dev.conf.sample_rate → rate ≠ dev.conf.compass_sample_rate →
      (mpu9250_set_compass_sample_rate dev bs rate).ret = 0 ∧
      (mpu9250_set_compass_sample_rate dev bs rate).dev.conf.compass_sample_rate
        = dev.conf.sample_rate / ((dev.conf.sample_rate / rate - 1) % 256 + 1) ∧
      writesTo (mpu9250_set_compass_sample_rate dev bs rate).bs.trace dev.params.addr
          MPU9250_SLAVE4_CTRL_REG
        = [(dev.conf.sample_rate / rate - 1) % 256]) := by
  refine ⟨fun h => ?_, fun hlo hhi hle h => ?_, fun hlo hhi hle hne => ?_⟩
  · unfold mpu9250_set_compass_sample_rate
    rw [if_pos h]
  · have hr : ¬(rate < MPU9250_MIN_COMP_SMPL_RATE ∨ MPU9250_MAX_COMP_SMPL_RATE < rate
        ∨ dev.conf.sample_rate < rate) := by omega
    unfold mpu9250_set_compass_sample_rate
    rw [if_neg hr, if_pos h]
  · rw [set_compass_sample_rate_success dev bs rate hok hlo hhi hle hne]
    refine ⟨rfl, rfl, ?_⟩
    simp [ht, writesTo, Nat.mod_mod_of_dvd]

/-- Witness for C4 (amended) at concrete inputs: 101 Hz is rejected, the
stored 10 Hz is a pure no-op, and changing to 100 Hz at sensor rate 1000
stores `1000/(9+1) = 100` and writes divider 9. -/
theorem C4_compass_rate_amended_witness :
    mpu9250_set_compass_sample_rate devA bsA 101 = ⟨-2, devA, bsA⟩ ∧
    mpu9250_set_compass_sample_rate
        { devA with conf :=
          { devA.conf with sample_rate := 1000, compass_sample_rate := 10 } } bsA 10
      = ⟨0, { devA with conf :=
          { devA.conf with sample_rate := 1000, compass_sample_rate := 10 } }, bsA⟩ ∧
    ((mpu9250_set_compass_sample_rate
        { devA with conf := { devA.conf with sample_rate := 1000 } } bsA 100).ret = 0 ∧
      (mpu9250_set_compass_sample_rate
        { devA with conf := { devA.conf with sample_rate := 1000 } } bsA
          100).dev.conf.compass_sample_rate
        = 1000 / ((1000 / 100 - 1) % 256 + 1) ∧
      writesTo (mpu9250_set_compass_sample_rate
          { devA with conf := { devA.conf with sample_rate := 1000 } } bsA 100).bs.trace
          devA.params.addr MPU9250_SLAVE4_CTRL_REG
        = [(1000 / 100 - 1) % 256]) :=
  ⟨(C4_compass_rate_amended devA bsA 101 rfl rfl).1 (by decide),
   (C4_compass_rate_amended
      { devA with conf :=
        { devA.conf with sample_rate := 1000, compass_sample_rate := 10 } } bsA 10
      rfl rfl).2.1 (by decide) (by decide) (by decide) (by decide),
   (C4_compass_rate_amended
      { devA with conf := { devA.conf with sample_rate := 1000 } } bsA 100
      rfl rfl).2.2 (by decide) (by decide) (by decide) (by decide)⟩

/-- C5 (counterexample): both halves of the claimed invariant fail on
reachable states.  Starting from the factory default, requesting sensor rate
300 Hz stores 333 Hz, after which the *valid* compass request 100 Hz stores
`333/(⌊333/100⌋) = 111` Hz — outside [1,100].  And after storing sensor rate
1000 Hz and compass rate 100 Hz, lowering the sensor rate to 4 Hz leaves the
compass rate at 100 Hz — above the sensor rate. -/
theorem C5_compass_invariant_counterexample :
    ((mpu9250_set_sample_rate devA bsA 300).ret = 0 ∧
     (mpu9250_set_compass_sample_rate (mpu9250_set_sample_rate devA bsA 300).dev
        (mpu9250_set_sample_rate devA bsA 300).bs 100).ret = 0 ∧
     (mpu9250_set_compass_sample_rate (mpu9250_set_sample_rate devA bsA 300).dev
        (mpu9250_set_sample_rate devA bsA 300).bs 100).dev.conf.compass_sample_rate
       = 111) ∧
    (let r1 := mpu9250_set_sample_rate devA bsA 1000
     let r2 := mpu9250_set_compass_sample_rate r1.dev r1.bs 100
     let r3 := mpu9250_set_sample_rate r2.dev r2.bs 4
     r1.ret = 0 ∧ r2.ret = 0 ∧ r3.ret = 0 ∧
     r3.dev.conf.compass_sample_rate = 100 ∧
     r3.dev.conf.sample_rate = 4 ∧
     ¬(r3.dev.conf.compass_sample_rate ≤ r3.dev.conf.sample_rate)) := by
  decide

/-- C5 (amended): what does hold is a postcondition of the compass setter
itself, not a global invariant: immediately after a successful rate-changing
`mpu9250_set_compass_sample_rate` call the stored compass rate is at least 1
and at most the (unchanged) stored sensor rate.  A later sensor-rate change
can push the stored compass rate above the sensor rate, and 8-bit divider
truncation can store a compass rate above 100, as the counterexample shows. -/
theorem C5_compass_rate_postcondition (dev : Dev) (bs : BusState) (rate : Nat)
    (hok : bs.acquireOk = true) (hlo : MPU9250_MIN_COMP_SMPL_RATE ≤ rate)
    (hhi : rate ≤ MPU9250_MAX_COMP_SMPL_RATE) (hle : rate ≤ dev.conf.sample_rate)
    (hne : rate ≠ dev.conf.compass_sample_rate) :
    (mpu9250_set_compass_sample_rate dev bs rate).ret = 0 ∧
    (mpu9250_set_compass_sample_rate dev bs rate).dev.conf.sample_rate
      = dev.conf.sample_rate ∧
    1 ≤ (mpu9250_set_compass_sample_rate dev bs rate).dev.conf.compass_sample_rate ∧
    (mpu9250_set_compass_sample_rate dev bs rate).dev.conf.compass_sample_rate
      ≤ (mpu9250_set_compass_sample_rate dev bs rate).dev.conf.sample_rate := by
  rw [set_compass_sample_rate_success dev bs rate hok hlo hhi hle hne]
  have hlo' : 1 ≤ rate := hlo
  refine ⟨rfl, rfl, ?_, Nat.div_le_self _ _⟩
  have hq1 : 1 ≤ dev.conf.sample_rate / rate :=
    (Nat.one_le_div_iff (by omega)).mpr hle
  have hqs : dev.conf.sample_rate / rate ≤ dev.conf.sample_rate :=
    Nat.div_le_self _ _
  have hmle : (dev.conf.sample_rate / rate - 1) % 256 ≤ dev.conf.sample_rate / rate - 1 :=
    Nat.mod_le _ _
  exact (Nat.one_le_div_iff (by omega)).mpr (by omega)

/-- Witness for C5 (amended) at a concrete input: sensor rate 333 Hz,
compass request 100 Hz — stored compass rate 111 is ≥ 1 and ≤ 333. -/
theorem C5_compass_rate_postcondition_witness :
    (mpu9250_set_compass_sample_rate
        { devA with conf := { devA.conf with sample_rate := 333 } } bsA 100).ret = 0 ∧
    (mpu9250_set_compass_sample_rate
        { devA with conf := { devA.conf with sample_rate := 333 } } bsA
          100).dev.conf.sample_rate = 333 ∧
    1 ≤ (mpu9250_set_compass_sample_rate
        { devA with conf := { devA.conf with sample_rate := 333 } } bsA
          100).dev.conf.compass_sample_rate ∧
    (mpu9250_set_compass_sample_rate
        { devA with conf := { devA.conf with sample_rate := 333 } } bsA
          100).dev.conf.compass_sample_rate
      ≤ (mpu9250_set_compass_sample_rate
        { devA with conf := { devA.conf with sample_rate := 333 } } bsA
          100).dev.conf.sample_rate := by
  have h := C5_compass_rate_postcondition
    { devA with conf := { devA.conf with sample_rate := 333 } } bsA 100
    rfl (by decide) (by decide) (by decide) (by decide)
  exact ⟨h.1, by rw [h.2.1], h.2.2.1, h.2.2.2⟩

/-! ## Claim C1 — the shared power-management-1 register -/

/-- C1 (counterexample): turning the gyro ON while the accelerometer and the
compass are both ON is neither a transition into all-off nor a wake from
all-off, yet `mpu9250_set_gyro_power` writes power-management-1 (the clock
source, with the PLL value); and a compass transition does not toggle any
power-management-2 standby bit at all — it writes the slave-1 data-out and
user-control registers instead. -/
theorem C1_pm1_counterexample :
    ((mpu9250_set_gyro_power
        { devA with conf := { devA.conf with gyro_pwr := .off } } bsA .on).ret = 0 ∧
     writesTo (mpu9250_set_gyro_power
        { devA with conf := { devA.conf with gyro_pwr := .off } } bsA .on).bs.trace
        devA.params.addr MPU9250_PWR_MGMT_1_REG = [MPU9250_PWR_PLL] ∧
     ¬ allOff (mpu9250_set_gyro_power
        { devA with conf := { devA.conf with gyro_pwr := .off } } bsA .on).dev.conf ∧
     ¬ allOff { devA.conf with gyro_pwr := Pwr.off }) ∧
    ((mpu9250_set_compass_power devA bsA .off).ret = 0 ∧
     writesTo (mpu9250_set_compass_power devA bsA .off).bs.trace devA.params.addr
        MPU9250_PWR_MGMT_2_REG = [] ∧
     writesTo (mpu9250_set_compass_power devA bsA .off).bs.trace devA.params.addr
        MPU9250_USER_CTRL_REG ≠ [] ∧
     writesTo (mpu9250_set_compass_power devA bsA .off).bs.trace devA.params.addr
        MPU9250_SLAVE1_DATA_OUT_REG ≠ []) := by
  decide

/-- C1 (amended): the accel and compass setters write power-management-1 iff
the transition leaves all three subsystems OFF or wakes from all-off, but the
gyro setter writes power-management-1 on *every* actual transition (the PLL
clock code when turning on; the sleep bit when the other two are off; the
internal-oscillator wake value otherwise).  Accel and gyro transitions write
power-management-2 exactly once, setting or clearing only their own standby
bits; a compass transition never writes power-management-2 — it writes the
slave-1 data-out byte and toggles the I2C-master-enable bit in user-control
instead. -/
theorem C1_pm1_amended (dev : Dev) (bs : BusState) (pwr : Pwr)
    (hok : bs.acquireOk = true) (ht : bs.trace = []) :
    (pwr ≠ dev.conf.accel_pwr →
      ((writesTo (mpu9250_set_accel_power dev bs pwr).bs.trace dev.params.addr
          MPU9250_PWR_MGMT_1_REG ≠ []) ↔
        (allOff (mpu9250_set_accel_power dev bs pwr).dev.conf ∨
          (allOff dev.conf ∧ pwr = .on))) ∧
      writesTo (mpu9250_set_accel_power dev bs pwr).bs.trace dev.params.addr
          MPU9250_PWR_MGMT_2_REG
        = [if pwr = .on
            then (regVal bs dev.params.addr MPU9250_PWR_MGMT_2_REG
                    &&& (255 ^^^ MPU9250_PWR_ACCEL)) % 256
            else (regVal bs dev.params.addr MPU9250_PWR_MGMT_2_REG
                    ||| MPU9250_PWR_ACCEL) % 256]) ∧
    (pwr ≠ dev.conf.gyro_pwr →
      writesTo (mpu9250_set_gyro_power dev bs pwr).bs.trace dev.params.addr
          MPU9250_PWR_MGMT_1_REG
        = [if pwr = .on then MPU9250_PWR_PLL
           else if dev.conf.accel_pwr = .off ∧ dev.conf.compass_pwr = .off
             then BIT_PWR_MGMT1_SLEEP else MPU9250_PWR_WAKEUP] ∧
      writesTo (mpu9250_set_gyro_power dev bs pwr).bs.trace dev.params.addr
          MPU9250_PWR_MGMT_2_REG
        = [if pwr = .on
            then (regVal bs dev.params.addr MPU9250_PWR_MGMT_2_REG
                    &&& (255 ^^^ MPU9250_PWR_GYRO)) % 256
            else (regVal bs dev.params.addr MPU9250_PWR_MGMT_2_REG
                    ||| MPU9250_PWR_GYRO) % 256]) ∧
    (pwr ≠ dev.conf.compass_pwr →
      ((writesTo (mpu9250_set_compass_power dev bs pwr).bs.trace dev.params.addr
          MPU9250_PWR_MGMT_1_REG ≠ []) ↔
        (allOff (mpu9250_set_compass_power dev bs pwr).dev.conf ∨
          (allOff dev.conf ∧ pwr = .on))) ∧
      writesTo (mpu9250_set_compass_power dev bs pwr).bs.trace dev.params.addr
          MPU9250_PWR_MGMT_2_REG = [] ∧
      writesTo (mpu9250_set_compass_power dev bs pwr).bs.trace dev.params.addr
          MPU9250_USER_CTRL_REG
        = [if pwr = .on
            then (regVal bs dev.params.addr MPU9250_USER_CTRL_REG
                    ||| BIT_I2C_MST_EN) % 256
            else (regVal bs dev.params.addr MPU9250_USER_CTRL_REG
                    &&& (255 ^^^ BIT_I2C_MST_EN)) % 256] ∧
      writesTo (mpu9250_set_compass_power dev bs pwr).bs.trace dev.params.addr
          MPU9250_SLAVE1_DATA_OUT_REG
        = [if pwr = .on then MPU9250_COMP_SINGLE_MEASURE else MPU9250_COMP_POWER_DOWN]) := by
  refine ⟨fun hne => ?_, fun hne => ?_, fun hne => ?_⟩
  · unfold mpu9250_set_accel_power
    rw [if_neg (Ne.symm hne)]
    cases pwr <;> cases ha : dev.conf.accel_pwr <;> cases hg : dev.conf.gyro_pwr <;>
      cases hc : dev.conf.compass_pwr <;>
        simp_all [hok, ht, writesTo, allOff, regVal, BIT_PWR_MGMT1_SLEEP,
          MPU9250_PWR_PLL, MPU9250_PWR_WAKEUP, MPU9250_COMP_SINGLE_MEASURE,
          MPU9250_COMP_POWER_DOWN, BIT_I2C_MST_EN, MPU9250_PWR_ACCEL,
          MPU9250_PWR_GYRO]
  · unfold mpu9250_set_gyro_power
    rw [if_neg (Ne.symm hne)]
    cases pwr <;> cases ha : dev.conf.accel_pwr <;> cases hg : dev.conf.gyro_pwr <;>
      cases hc : dev.conf.compass_pwr <;>
        simp_all [hok, ht, writesTo, allOff, regVal, BIT_PWR_MGMT1_SLEEP,
          MPU9250_PWR_PLL, MPU9250_PWR_WAKEUP, MPU9250_COMP_SINGLE_MEASURE,
          MPU9250_COMP_POWER_DOWN, BIT_I2C_MST_EN, MPU9250_PWR_ACCEL,
          MPU9250_PWR_GYRO]
  · unfold mpu9250_set_compass_power
    rw [if_neg (Ne.symm hne)]
    cases pwr <;> cases ha : dev.conf.accel_pwr <;> cases hg : dev.conf.gyro_pwr <;>
      cases hc : dev.conf.compass_pwr <;>
        simp_all [hok, ht, writesTo, allOff, regVal, BIT_PWR_MGMT1_SLEEP,
          MPU9250_PWR_PLL, MPU9250_PWR_WAKEUP, MPU9250_COMP_SINGLE_MEASURE,
          MPU9250_COMP_POWER_DOWN, BIT_I2C_MST_EN, MPU9250_PWR_ACCEL,
          MPU9250_PWR_GYRO]

/-- Witness for C1 (amended) at a concrete input: all three subsystems ON,
requesting OFF is a genuine transition for each setter. -/
theorem C1_pm1_amended_witness :
    (¬ writesTo (mpu9250_set_accel_power devA bsA .off).bs.trace devA.params.addr
        MPU9250_PWR_MGMT_1_REG ≠ [] ∧
      writesTo (mpu9250_set_accel_power devA bsA .off).bs.trace devA.params.addr
        MPU9250_PWR_MGMT_2_REG = [(regVal bsA devA.params.addr MPU9250_PWR_MGMT_2_REG
          ||| MPU9250_PWR_ACCEL) % 256]) ∧
    (writesTo (mpu9250_set_gyro_power devA bsA .off).bs.trace devA.params.addr
        MPU9250_PWR_MGMT_1_REG = [MPU9250_PWR_WAKEUP]) ∧
    (writesTo (mpu9250_set_compass_power devA bsA .off).bs.trace devA.params.addr
        MPU9250_PWR_MGMT_2_REG = []) := by
  have h1 := (C1_pm1_amended devA bsA .off rfl rfl).1 (by decide)
  have h2 := (C1_pm1_amended devA bsA .off rfl rfl).2.1 (by decide)
  have h3 := (C1_pm1_amended devA bsA .off rfl rfl).2.2 (by decide)
  refine ⟨⟨?_, ?_⟩, ?_, ?_⟩
  · intro hw
    have := h1.1.mp hw
    revert this
    decide
  · have := h1.2
    simpa using this
  · have := h2.1
    simpa using this
  · exact h3.2.1

/-! ## Claim C6 — compass identity mismatch is fatal to initialization -/

set_option maxHeartbeats 1000000 in
/-- C6: if the compass identity register does not hold the expected fixed
value, `compass_init` fails with −1, and the whole bring-up
(`mpu9250_init`, which runs `mpu9250_reset_and_init`) propagates this as the
distinct initialization-failure code −2 (≠ the bus error −1) after exactly
one identity read — the check is not retried. -/
theorem C6_compass_identity_failure (params : Params) (bs : BusState)
    (hok : bs.acquireOk = true) (ht : bs.trace = [])
    (hwho : bs.regs params.comp_addr COMPASS_WHOAMI_REG % 256
      ≠ MPU9250_COMP_WHOAMI_ANSWER) :
    (∀ dev bs2, bs2.regs dev.params.comp_addr COMPASS_WHOAMI_REG % 256
        ≠ MPU9250_COMP_WHOAMI_ANSWER →
      (compass_init dev bs2).1 = -1) ∧
    (mpu9250_init params true bs).ret = -2 ∧
    (readsFrom (mpu9250_init params true bs).bs.trace params.comp_addr
        COMPASS_WHOAMI_REG).length = 1 ∧
    ((-2 : Int) ≠ -1) := by
  constructor
  · intro dev bs2 h
    simp [compass_init, conf_bypass, regVal, h]
  · by_cases hr : params.sample_rate < 4 ∨ 1000 < params.sample_rate
    · refine ⟨?_, ?_, by norm_num⟩ <;>
        simp [mpu9250_init, mpu9250_reset_and_init, mpu9250_set_gyro_fsr,
          mpu9250_set_accel_fsr, mpu9250_set_sample_rate, compass_init,
          conf_bypass, conf_lpf, DEFAULT_STATUS, regVal, readsFrom,
          MPU9250_MIN_SAMPLE_RATE, MPU9250_MAX_SAMPLE_RATE, hok, ht, hr, hwho]
    · have hz : ¬((0 : Nat) = params.sample_rate) := by omega
      refine ⟨?_, ?_, by norm_num⟩ <;>
        simp [mpu9250_init, mpu9250_reset_and_init, mpu9250_set_gyro_fsr,
          mpu9250_set_accel_fsr, mpu9250_set_sample_rate, compass_init,
          conf_bypass, conf_lpf, DEFAULT_STATUS, regVal, readsFrom,
          MPU9250_MIN_SAMPLE_RATE, MPU9250_MAX_SAMPLE_RATE, hok, ht, hr, hz, hwho]

/-- Witness for C6 at a concrete input: a bus whose registers all read 0, so
the identity register answers 0 ≠ 0x48. -/
theorem C6_compass_identity_failure_witness :
    (mpu9250_init paramsA true bsA).ret = -2 ∧
    (readsFrom (mpu9250_init paramsA true bsA).bs.trace paramsA.comp_addr
        COMPASS_WHOAMI_REG).length = 1 :=
  ⟨(C6_compass_identity_failure paramsA bsA rfl rfl (by decide)).2.1,
   (C6_compass_identity_failure paramsA bsA rfl rfl (by decide)).2.2.1⟩

end Mpu9250

